import Mathlib

/-!
Verification of the otel-metrics-wrapper-go metrics lifecycle and
instrumentation library, shallowly embedded in Lean 4.

The embedding follows the Go sources:
* `initialization.go` — `Config`, `validateConfig`, `InitMetrics`,
  `ShutdownMetrics`, `GetMeter`, the package-level lifecycle state
  (`meterProvider`, `shutdownFunc`, `initOnce`, `shutdownOnce`,
  `initialized`), and the otel global meter provider touched via
  `otel.SetMeterProvider` / `otel.GetMeterProvider`.
* `classify.go` — `classifyError`.
* `http.go` — `HTTPMetrics`, `RecordRequestStart`, `RecordRequestEnd`,
  and the in-flight gauge callback.

External effects (exporter construction, resource construction, the
backend flush performed by `MeterProvider.Shutdown`) are modelled as
explicit outcome parameters.  Instrument writes (`Add`, `Record`) are
modelled as appending the measurement together with its attribute set
to a per-instrument list, which is what the SDK backend accumulates.
Histogram bucket boundaries (`[]float64` in Go) are modelled as
integers: `validateConfig` only ever inspects the length of the list,
never the values, so any linearly ordered carrier is faithful.
-/

namespace OtelMetrics

/-- Go type `InstrumentViewConfig` from `initialization.go`: a custom histogram
view, naming an instrument and its explicit bucket boundaries. -/
structure InstrumentViewConfig where
  instrumentName : String
  buckets : List Int
  deriving DecidableEq, Repr

/-- Go type `Config` from `initialization.go`.  `pushInterval` is a
`time.Duration`, i.e. a signed integer count of nanoseconds. -/
structure Config where
  otlpEndpoint : String
  otlpInsecure : Bool
  otlpCAFile : String
  pushInterval : Int
  serviceName : String
  environment : String
  customHistogramViews : List InstrumentViewConfig
  deriving DecidableEq, Repr

/-- The loop over `cfg.CustomHistogramViews` inside `validateConfig`:
the first view with an empty instrument name or with fewer than two
bucket boundaries produces an error. -/
def validateViews : List InstrumentViewConfig → Option String
  | [] => none
  | hv :: rest =>
    if hv.instrumentName = "" then
      some "found a CustomHistogramView with empty InstrumentName"
    else if hv.buckets.length = 0 ∨ hv.buckets.length < 2 then
      some "found a CustomHistogramView with less than 2 Buckets"
    else validateViews rest

/-- Function `validateConfig` from `initialization.go`: returns the first
validation error, or `none` when the configuration is accepted. -/
def validateConfig (cfg : Config) : Option String :=
  if cfg.otlpEndpoint = "" then some "OTLPEndpoint is required"
  else if cfg.serviceName = "" then some "ServiceName is required"
  else if cfg.environment = "" then some "Environment is required"
  else if cfg.pushInterval ≤ 0 then some "PushInterval must be greater than 0"
  else if ¬cfg.otlpInsecure ∧ cfg.otlpCAFile = "" then
    some "CA file required for secure mode"
  else validateViews cfg.customHistogramViews

/-- A reference to a meter provider: either the otel API default
provider (a no-op delegate before any `SetMeterProvider` call) or an
SDK provider built by `InitMetrics`, identified by a tag. -/
inductive ProviderRef where
  | defaultProvider
  | sdk (id : Nat)
  deriving DecidableEq, Repr

/-- The package-level lifecycle state of `initialization.go`:
`meterProvider`, `shutdownFunc` (tagged by the provider it flushes),
the two `sync.Once` guards, the `initialized` flag, and the otel
global provider set via `otel.SetMeterProvider`.  `flushRuns` is a
ghost counter of how many times the provider flush/stop body
(`shutdownFunc`) actually ran. -/
structure LifecycleState where
  meterProvider : Option Nat
  shutdownFunc : Option Nat
  initOnceFired : Bool
  shutdownOnceFired : Bool
  initialized : Bool
  apiGlobal : ProviderRef
  flushRuns : Nat
  deriving DecidableEq, Repr

/-- The zero value of the package-level state at process start. -/
def initialState : LifecycleState :=
  { meterProvider := none
    shutdownFunc := none
    initOnceFired := false
    shutdownOnceFired := false
    initialized := false
    apiGlobal := .defaultProvider
    flushRuns := 0 }

/-- Errors surfaced by `InitMetrics`: a wrapped validation error, a
wrapped exporter-construction failure, or a wrapped
resource-construction failure. -/
inductive InitError where
  | invalidConfig (msg : String)
  | exporterFailed
  | resourceFailed
  deriving DecidableEq, Repr

/-- Outcome of the external construction steps inside the
`initOnce.Do` body: `createOTLPExporter` may fail, `resource.New` may
fail, or both succeed and yield a fresh SDK provider tagged `id`. -/
inductive ConstructOutcome where
  | exporterFail
  | resourceFail
  | ok (id : Nat)
  deriving DecidableEq, Repr

/-- Function `InitMetrics` from `initialization.go`.  Validation runs before
the `initOnce.Do`; the construction body runs only if the init guard
has not fired, and `initErr` is a fresh local on every call, so a call
that skips the body returns `none`.  On success the body stores the
provider, registers it as the otel global (`SetMeterProvider`),
installs the shutdown hook and sets `initialized`. -/
def initMetrics (s : LifecycleState) (cfg : Config) (out : ConstructOutcome) :
    LifecycleState × Option InitError :=
  match validateConfig cfg with
  | some msg => (s, some (.invalidConfig msg))
  | none =>
    if s.initOnceFired then (s, none)
    else
      match out with
      | .exporterFail => ({ s with initOnceFired := true }, some .exporterFailed)
      | .resourceFail => ({ s with initOnceFired := true }, some .resourceFailed)
      | .ok id =>
        ({ s with
            initOnceFired := true
            meterProvider := some id
            apiGlobal := .sdk id
            shutdownFunc := some id
            initialized := true }, none)

/-- Function `ShutdownMetrics` from `initialization.go`.  The whole body is
guarded by `shutdownOnce.Do`; `err` is a fresh local on every call.
Inside the body: an early return when not initialized (the `Once` is
still consumed), then either the `METRICS_SKIP_FLUSH` bypass or the
call to `shutdownFunc` (whose backend result is the `flushResult`
parameter), and finally `initialized` is cleared. -/
def shutdownMetrics (s : LifecycleState) (skipFlush : Bool)
    (flushResult : Option String) : LifecycleState × Option String :=
  if s.shutdownOnceFired then (s, none)
  else if ¬s.initialized then ({ s with shutdownOnceFired := true }, none)
  else if skipFlush then
    ({ s with shutdownOnceFired := true, initialized := false }, none)
  else
    match s.shutdownFunc with
    | some _ =>
      ({ s with
          shutdownOnceFired := true
          initialized := false
          flushRuns := s.flushRuns + 1 }, flushResult)
    | none =>
      ({ s with shutdownOnceFired := true, initialized := false }, none)

/-- A meter, as produced by `Provider.Meter(name)`: the provider it
came from together with the scope name. -/
structure Meter where
  provider : ProviderRef
  scope : String
  deriving DecidableEq, Repr

/-- Function `GetMeter` from `initialization.go`: when uninitialized (or the
stored provider is nil) it asks the otel global provider
(`otel.GetMeterProvider()`), otherwise the stored SDK provider. -/
def getMeter (s : LifecycleState) (name : String) : Meter :=
  if ¬s.initialized ∨ s.meterProvider = none then
    { provider := s.apiGlobal, scope := name }
  else
    match s.meterProvider with
    | some id => { provider := .sdk id, scope := name }
    | none => { provider := s.apiGlobal, scope := name }

/-- One externally visible lifecycle call: an `InitMetrics` call with
its configuration and construction outcome, or a `ShutdownMetrics`
call with the skip-flush environment switch and the backend flush
result. -/
inductive Event where
  | initEv (cfg : Config) (out : ConstructOutcome)
  | shutdownEv (skipFlush : Bool) (flushResult : Option String)
  deriving DecidableEq, Repr

/-- State transition of a single lifecycle call. -/
def step (s : LifecycleState) (ev : Event) : LifecycleState :=
  match ev with
  | .initEv cfg out => (initMetrics s cfg out).1
  | .shutdownEv skip res => (shutdownMetrics s skip res).1

/-- The lifecycle state reached from process start after a sequence of
lifecycle calls. -/
def run (tr : List Event) : LifecycleState := tr.foldl step initialState

/-- An event is a successful initialization attempt: an `InitMetrics`
call with a valid configuration whose construction succeeded. -/
def successInit : Event → Bool
  | .initEv cfg (.ok _) => validateConfig cfg = none
  | _ => false

/-- A valid configuration used by concrete witnesses below. -/
def cfgValid : Config :=
  { otlpEndpoint := "localhost:4317"
    otlpInsecure := true
    otlpCAFile := ""
    pushInterval := 10000000000
    serviceName := "test-service"
    environment := "test"
    customHistogramViews := [] }

/-! ## Error classification (`classify.go`) -/

/-- A gRPC status code, as recovered by `status.FromError`.  The three
codes the classifier names specially are distinguished; every other
code is carried with its `Code().String()` name. -/
inductive GrpcCode where
  | deadlineExceeded
  | notFound
  | invalidArgument
  | other (name : String)
  deriving DecidableEq, Repr

/-- Constant `pgerrcode.UniqueViolation`. -/
def uniqueViolation : String := "23505"

/-- Constant `pgerrcode.ForeignKeyViolation`. -/
def foreignKeyViolation : String := "23503"

/-- A non-nil Go error value, projected onto exactly the observations
`classifyError` makes of it: the two `errors.Is` context checks, the
`errors.As net.Error` capability with its `Timeout()` flag, the
`Error()` message, the `errors.As *pgconn.PgError` code, and the
`status.FromError` gRPC code. -/
structure GoError where
  isCanceled : Bool
  isDeadlineExceeded : Bool
  netErr : Option Bool
  msg : String
  pgCode : Option String
  grpcStatus : Option GrpcCode
  deriving DecidableEq, Repr

/-- Go expression `strings.Contains s pat`: `splitOn` with a non-empty pattern
yields more than one piece exactly when the pattern occurs. -/
def strInside (s pat : String) : Bool := 2 ≤ (s.splitOn pat).length

/-- Function `classifyError` from `classify.go`, mirroring the Go control flow:
the nil check, the context `switch`, the `net.Error` branch, the
lowercase message sniffing, the `pgconn.PgError` switch, the gRPC
status switch, and the `"unknown"` fallback. -/
def classifyError (err : Option GoError) : String :=
  match err with
  | none => ""
  | some e =>
    if e.isCanceled then "canceled"
    else if e.isDeadlineExceeded then "timeout"
    else
      match e.netErr with
      | some t => if t then "network_timeout" else "network"
      | none =>
        if strInside e.msg.toLower "parse" ∨ strInside e.msg.toLower "syntax" then
          "invalid_input"
        else
          match e.pgCode with
          | some c =>
            if c = uniqueViolation then "db_unique_violation"
            else if c = foreignKeyViolation then "db_fk_violation"
            else "db_error"
          | none =>
            match e.grpcStatus with
            | some g =>
              match g with
              | .deadlineExceeded => "grpc_timeout"
              | .notFound => "grpc_not_found"
              | .invalidArgument => "grpc_invalid_arg"
              | .other n => "grpc_" ++ n
            | none => "unknown"

/-- The classification cascade exactly as the specification words it:
eight numbered rules, first match wins — nil, cancellation, context
deadline, network capability (timeout flag deciding the variant),
message sniffing for "parse"/"syntax", structured database code,
structured RPC status code, unknown. -/
def classifySpec (err : Option GoError) : String :=
  if err = none then ""
  else
    let e := err.getD ⟨false, false, none, "", none, none⟩
    if e.isCanceled then "canceled"
    else if e.isDeadlineExceeded then "timeout"
    else if e.netErr.isSome then
      if e.netErr.getD false then "network_timeout" else "network"
    else if strInside e.msg.toLower "parse" ∨ strInside e.msg.toLower "syntax" then
      "invalid_input"
    else if e.pgCode.isSome then
      if e.pgCode.getD "" = uniqueViolation then "db_unique_violation"
      else if e.pgCode.getD "" = foreignKeyViolation then "db_fk_violation"
      else "db_error"
    else if e.grpcStatus.isSome then
      match e.grpcStatus.getD (.other "") with
      | .deadlineExceeded => "grpc_timeout"
      | .notFound => "grpc_not_found"
      | .invalidArgument => "grpc_invalid_arg"
      | .other n => "grpc_" ++ n
    else "unknown"

/-! ## HTTP request metrics (`http.go`) -/

/-- The backend-visible accumulation of an `HTTPMetrics` group:
each `Add`/`Record` appends its measurement with its attribute set.
`requestsTotal` entries carry (method, route); the error counter,
duration histogram and size histogram entries carry
(method, route, status_code); `inFlight` is the atomic counter behind
the `requests.in_flight` observable gauge. -/
structure HTTPState where
  requestsTotal : List (String × String)
  requestsErrors : List (String × String × Int)
  requestsDuration : List ((String × String × Int) × Int)
  responseSize : List ((String × String × Int) × Int)
  inFlight : Int
  deriving DecidableEq, Repr

/-- A fresh `HTTPMetrics` group: no measurements, in-flight zero. -/
def initHTTPState : HTTPState :=
  { requestsTotal := []
    requestsErrors := []
    requestsDuration := []
    responseSize := []
    inFlight := 0 }

/-- Method `RecordRequestStart`: adds 1 to `requests.total` tagged with
method/route, then atomically increments the in-flight counter. -/
def recordRequestStart (s : HTTPState) (method route : String) : HTTPState :=
  { s with
      requestsTotal := s.requestsTotal ++ [(method, route)]
      inFlight := s.inFlight + 1 }

/-- Method `RecordRequestEnd`: atomically decrements the in-flight counter;
adds 1 to `requests.errors` (tagged method/route/status) when
`statusCode >= 400`; then always records the elapsed wall-clock time
since `start` truncated to milliseconds (`Duration.Milliseconds`
truncates toward zero) into `requests.duration` and the response size
into `response.size`, both tagged method/route/status.  `nowNs` and
`startNs` are the nanosecond clock readings behind `time.Since`. -/
def recordRequestEnd (s : HTTPState) (method route : String)
    (statusCode respSize nowNs startNs : Int) : HTTPState :=
  let s1 := { s with inFlight := s.inFlight - 1 }
  let s2 :=
    if 400 ≤ statusCode then
      { s1 with requestsErrors := s1.requestsErrors ++ [(method, route, statusCode)] }
    else s1
  let elapsedMs := Int.tdiv (nowNs - startNs) 1000000
  let s3 := { s2 with
      requestsDuration := s2.requestsDuration ++ [((method, route, statusCode), elapsedMs)] }
  { s3 with
      responseSize := s3.responseSize ++ [((method, route, statusCode), respSize)] }

/-- The value the registered in-flight callback observes: an atomic
load of the counter. -/
def observeInFlight (s : HTTPState) : Int := s.inFlight

/-- One call against an `HTTPMetrics` group. -/
inductive HTTPEvent where
  | startEv (method route : String)
  | endEv (method route : String) (statusCode respSize nowNs startNs : Int)
  deriving DecidableEq, Repr

/-- Dispatch of a single `HTTPMetrics` call. -/
def httpStep (s : HTTPState) (ev : HTTPEvent) : HTTPState :=
  match ev with
  | .startEv m r => recordRequestStart s m r
  | .endEv m r code size now st => recordRequestEnd s m r code size now st

/-- The group state after a sequence of calls on a fresh group. -/
def runHTTP (evs : List HTTPEvent) : HTTPState := evs.foldl httpStep initHTTPState

/-- Number of `RecordRequestStart` calls in a call sequence. -/
def countStarts (evs : List HTTPEvent) : Nat :=
  evs.countP fun ev => match ev with | .startEv _ _ => true | _ => false

/-- Number of `RecordRequestEnd` calls in a call sequence. -/
def countEnds (evs : List HTTPEvent) : Nat :=
  evs.countP fun ev => match ev with | .endEv _ _ _ _ _ _ => true | _ => false

/-- The list of lifecycle events contains no successful initialization. -/
def noSuccessInit (tr : List Event) : Bool := tr.all fun ev => !successInit ev

/-- Ghost invariant on the flush counter: the flush body never runs
before the shutdown guard fires, and it runs at most once. -/
def FlushInv (s : LifecycleState) : Prop :=
  (s.shutdownOnceFired = false → s.flushRuns = 0) ∧ s.flushRuns ≤ 1

/-- Structural invariant of reachable lifecycle states: whenever the
`initialized` flag is set, a provider is stored. -/
def ProviderInv (s : LifecycleState) : Prop :=
  s.initialized = true → ∃ id, s.meterProvider = some id

/-- Written from the specification's validation rules as amended:
non-empty endpoint, service name and environment, positive push
interval, a CA file in secure mode, and every histogram view naming a
non-empty instrument with at least two bucket boundaries (the
ascending-order part of the spec's description is not enforced by the
code and is dropped here). -/
def specConfigAccepted (cfg : Config) : Prop :=
  cfg.otlpEndpoint ≠ "" ∧ cfg.serviceName ≠ "" ∧ cfg.environment ≠ "" ∧
  0 < cfg.pushInterval ∧ (cfg.otlpInsecure = true ∨ cfg.otlpCAFile ≠ "") ∧
  ∀ hv ∈ cfg.customHistogramViews,
    hv.instrumentName ≠ "" ∧ 2 ≤ hv.buckets.length

instance (cfg : Config) : Decidable (specConfigAccepted cfg) := by
  unfold specConfigAccepted
  infer_instance

/-! ## Shared lemmas -/

theorem shutdownMetrics_of_fired (s : LifecycleState) (skip : Bool)
    (res : Option String) (h : s.shutdownOnceFired = true) :
    shutdownMetrics s skip res = (s, none) := by
  simp [shutdownMetrics, h]

theorem shutdownMetrics_fires (s : LifecycleState) (skip : Bool)
    (res : Option String) :
    ((shutdownMetrics s skip res).1).shutdownOnceFired = true := by
  unfold shutdownMetrics
  by_cases h : s.shutdownOnceFired = true
  · simp [h]
  · simp only [Bool.not_eq_true] at h
    rcases hi : s.initialized <;> rcases hs : skip <;>
      rcases hf : s.shutdownFunc <;> simp [h, hi, hs, hf]

theorem step_preserves_fired (s : LifecycleState) (ev : Event)
    (h : s.shutdownOnceFired = true) : (step s ev).shutdownOnceFired = true := by
  cases ev with
  | initEv cfg out =>
    unfold step initMetrics
    rcases hv : validateConfig cfg <;>
      rcases ho : s.initOnceFired <;> rcases out <;> simp [hv, ho, h]
  | shutdownEv skip res => exact shutdownMetrics_fires s skip res

theorem foldl_preserves_fired (tr : List Event) (s : LifecycleState)
    (h : s.shutdownOnceFired = true) :
    (tr.foldl step s).shutdownOnceFired = true := by
  induction tr generalizing s with
  | nil => simpa using h
  | cons ev rest ih =>
    simp only [List.foldl_cons]
    exact ih _ (step_preserves_fired s ev h)

theorem step_preserves_flushInv (s : LifecycleState) (ev : Event)
    (h : FlushInv s) : FlushInv (step s ev) := by
  obtain ⟨h0, h1⟩ := h
  cases ev with
  | initEv cfg out =>
    unfold step initMetrics
    rcases hv : validateConfig cfg <;>
      rcases ho : s.initOnceFired <;> rcases out <;>
        simp_all [FlushInv]
  | shutdownEv skip res =>
    unfold step shutdownMetrics
    rcases hg : s.shutdownOnceFired
    · have hz : s.flushRuns = 0 := h0 hg
      rcases hi : s.initialized <;> rcases hs : skip <;>
        rcases hf : s.shutdownFunc <;> simp_all [FlushInv]
    · simp_all [FlushInv]

theorem foldl_preserves_flushInv (tr : List Event) (s : LifecycleState)
    (h : FlushInv s) : FlushInv (tr.foldl step s) := by
  induction tr generalizing s with
  | nil => simpa using h
  | cons ev rest ih =>
    simp only [List.foldl_cons]
    exact ih _ (step_preserves_flushInv s ev h)

theorem run_flushInv (tr : List Event) : FlushInv (run tr) := by
  refine foldl_preserves_flushInv tr initialState ⟨fun _ => rfl, Nat.zero_le 1⟩

theorem step_apiGlobal_of_not_successInit (s : LifecycleState) (ev : Event)
    (h : successInit ev = false) : (step s ev).apiGlobal = s.apiGlobal := by
  cases ev with
  | initEv cfg out =>
    unfold step initMetrics
    rcases hv : validateConfig cfg <;>
      rcases ho : s.initOnceFired <;> rcases out <;>
        simp_all [successInit]
  | shutdownEv skip res =>
    unfold step shutdownMetrics
    rcases hg : s.shutdownOnceFired <;> rcases hi : s.initialized <;>
      rcases hs : skip <;> rcases hf : s.shutdownFunc <;> simp_all

theorem foldl_apiGlobal_of_noSuccessInit (tr : List Event) (s : LifecycleState)
    (h : noSuccessInit tr = true) : (tr.foldl step s).apiGlobal = s.apiGlobal := by
  induction tr generalizing s with
  | nil => rfl
  | cons ev rest ih =>
    simp only [noSuccessInit, List.all_cons, Bool.and_eq_true, Bool.not_eq_eq_eq_not,
      Bool.not_true] at h
    simp only [List.foldl_cons]
    rw [ih _ (by simpa [noSuccessInit] using h.2)]
    exact step_apiGlobal_of_not_successInit s ev h.1

theorem step_preserves_providerInv (s : LifecycleState) (ev : Event)
    (h : ProviderInv s) : ProviderInv (step s ev) := by
  cases ev with
  | initEv cfg out =>
    unfold step initMetrics
    rcases hv : validateConfig cfg <;>
      rcases ho : s.initOnceFired <;> rcases out <;>
        simp_all [ProviderInv]
  | shutdownEv skip res =>
    unfold step shutdownMetrics
    rcases hg : s.shutdownOnceFired <;> rcases hi : s.initialized <;>
      rcases hs : skip <;> rcases hf : s.shutdownFunc <;> simp_all [ProviderInv]

theorem run_providerInv (tr : List Event) : ProviderInv (run tr) := by
  have : ∀ (l : List Event) (s : LifecycleState), ProviderInv s →
      ProviderInv (l.foldl step s) := by
    intro l
    induction l with
    | nil => intro s hs; simpa using hs
    | cons ev rest ih =>
      intro s hs
      simp only [List.foldl_cons]
      exact ih _ (step_preserves_providerInv s ev hs)
  exact this tr initialState (by intro h; simp [initialState] at h)

theorem foldl_inFlight (evs : List HTTPEvent) (s : HTTPState) :
    (evs.foldl httpStep s).inFlight
      = s.inFlight + countStarts evs - countEnds evs := by
  induction evs generalizing s with
  | nil => simp [countStarts, countEnds]
  | cons ev rest ih =>
    cases ev with
    | startEv m r =>
      simp only [List.foldl_cons, countStarts, countEnds, List.countP_cons]
      rw [ih]
      simp [httpStep, recordRequestStart, countStarts, countEnds]
      ring
    | endEv m r code size now st =>
      simp only [List.foldl_cons, countStarts, countEnds, List.countP_cons]
      rw [ih]
      simp [httpStep, recordRequestEnd, countStarts, countEnds]
      split <;> simp <;> ring

theorem validateViews_none_iff (l : List InstrumentViewConfig) :
    validateViews l = none
      ↔ ∀ hv ∈ l, hv.instrumentName ≠ "" ∧ 2 ≤ hv.buckets.length := by
  induction l with
  | nil => simp [validateViews]
  | cons hv rest ih =>
    simp only [validateViews]
    split_ifs with h1 h2
    · simp only [reduceCtorEq, false_iff, not_forall]
      refine ⟨hv, List.mem_cons_self hv rest, ?_⟩
      intro hcon
      exact absurd h1 hcon.1
    · simp only [reduceCtorEq, false_iff, not_forall]
      refine ⟨hv, List.mem_cons_self hv rest, ?_⟩
      intro hcon
      have := hcon.2
      omega
    · rw [ih]
      constructor
      · intro h
        intro x hx
        rcases List.mem_cons.mp hx with hx | hx
        · subst hx
          exact ⟨h1, by omega⟩
        · exact h x hx
      · intro h x hx
        exact h x (List.mem_cons_of_mem hv hx)

/-! ## Claim theorems -/

/-- C2: for every error value (including nil), `classifyError` agrees
with the specification's eight-rule priority cascade — nil before
cancellation, before context deadline, before the network capability
(timeout flag deciding `network_timeout` vs `network`), before
case-insensitive message sniffing for "parse"/"syntax", before the
structured database codes, before the structured RPC codes, before
`"unknown"` — first match winning. -/
theorem classifyError_matches_spec_cascade (err : Option GoError) :
    classifyError err = classifySpec err := by
  rcases err with _ | ⟨c, d, n, m, p, g⟩
  · rfl
  · rcases c <;> rcases d <;> rcases n with _ | t <;>
      rcases p with _ | pc <;> rcases g with _ | gc <;>
        simp [classifyError, classifySpec]

/-- C7: for every invalid configuration, `InitMetrics` returns the
configuration error on every call — whatever the one-shot guards,
provider, flags and hooks currently are — and leaves the entire
global state unchanged. -/
theorem initMetrics_invalid_config_always_rejected (s : LifecycleState)
    (cfg : Config) (out : ConstructOutcome) (msg : String)
    (h : validateConfig cfg = some msg) :
    initMetrics s cfg out = (s, some (.invalidConfig msg)) := by
  simp [initMetrics, h]

/-- Witness for C7: a configuration with an empty endpoint is
rejected with its validation error even in a state where both
one-shot guards have already fired, and the state is untouched. -/
theorem initMetrics_invalid_config_always_rejected_witness :
    initMetrics
        { initialState with initOnceFired := true, shutdownOnceFired := true }
        { cfgValid with otlpEndpoint := "" } (.ok 7)
      = ({ initialState with initOnceFired := true, shutdownOnceFired := true },
          some (.invalidConfig "OTLPEndpoint is required")) :=
  initMetrics_invalid_config_always_rejected _ _ _ _ (by decide)

/-- C8: when the first `ShutdownMetrics` call finds a successfully
initialized state (initialized flag set, shutdown hook installed,
shutdown guard not yet fired) and the backend flush fails, the flush
error is returned to the caller and the `initialized` flag is cleared
anyway. -/
theorem shutdown_flush_failure_clears_initialized (s : LifecycleState)
    (e : String) (id : Nat)
    (hinit : s.initialized = true)
    (hguard : s.shutdownOnceFired = false)
    (hhook : s.shutdownFunc = some id) :
    shutdownMetrics s false (some e)
      = ({ s with
            shutdownOnceFired := true
            initialized := false
            flushRuns := s.flushRuns + 1 }, some e) := by
  simp [shutdownMetrics, hinit, hguard, hhook]

/-- Witness for C8: in the state reached by a successful
initialization, a failing flush returns the error while clearing the
initialized flag. -/
theorem shutdown_flush_failure_clears_initialized_witness :
    shutdownMetrics (initMetrics initialState cfgValid (.ok 0)).1 false
        (some "context deadline exceeded")
      = ({ (initMetrics initialState cfgValid (.ok 0)).1 with
            shutdownOnceFired := true
            initialized := false
            flushRuns := (initMetrics initialState cfgValid (.ok 0)).1.flushRuns + 1 },
          some "context deadline exceeded") :=
  shutdown_flush_failure_clears_initialized _ _ 0 (by decide) (by decide) (by decide)

/-- Counterexample to C1: the very first `InitMetrics` attempt fails
with the exporter-construction error, yet the second call (same valid
configuration) returns `none` — not the captured error — because
`initErr` is a fresh local on every call and the `initOnce` body no
longer runs. -/
theorem initMetrics_error_not_memoized_cex :
    (initMetrics initialState cfgValid .exporterFail).2 = some .exporterFailed ∧
    initMetrics (initMetrics initialState cfgValid .exporterFail).1 cfgValid (.ok 0)
      = ((initMetrics initialState cfgValid .exporterFail).1, none) := by
  decide

/-- C1 as amended: once the one-shot init guard has fired, every
later `InitMetrics` call with a valid configuration performs no
construction side effects and returns success (`none`) — regardless
of whether the single construction attempt succeeded or failed; the
first attempt's error is not replayed. -/
theorem initMetrics_later_calls_return_success (s : LifecycleState)
    (cfg : Config) (out : ConstructOutcome)
    (hfired : s.initOnceFired = true)
    (hvalid : validateConfig cfg = none) :
    initMetrics s cfg out = (s, none) := by
  simp [initMetrics, hvalid, hfired]

/-- Witness for the amended C1: after a failed first attempt, a
retry that would have succeeded still returns `none` and changes
nothing. -/
theorem initMetrics_later_calls_return_success_witness :
    initMetrics (initMetrics initialState cfgValid .exporterFail).1 cfgValid (.ok 3)
      = ((initMetrics initialState cfgValid .exporterFail).1, none) :=
  initMetrics_later_calls_return_success _ _ _ (by decide) (by decide)

/-- Counterexample to C6: a `ShutdownMetrics` call on the
never-initialized state returns success but is not free of side
effects — it consumes the one-shot shutdown guard, leaving a state
different from the one it started in. -/
theorem shutdown_uninitialized_consumes_guard_cex :
    shutdownMetrics initialState false none
      = ({ initialState with shutdownOnceFired := true }, none) ∧
    ({ initialState with shutdownOnceFired := true } : LifecycleState)
      ≠ initialState := by
  decide

/-- C6 as amended: the provider flush/stop body runs at most once
across the process lifetime; a second sequential `ShutdownMetrics`
call performs no side effects and returns no error (whatever the
first call returned); and a call made when the system was never
initialized returns success leaving the provider, hooks and flags
unchanged — except that it consumes the one-shot shutdown guard. -/
theorem shutdown_idempotent_flush_at_most_once :
    (∀ tr : List Event, (run tr).flushRuns ≤ 1) ∧
    (∀ (s : LifecycleState) (sk1 sk2 : Bool) (r1 r2 : Option String),
      shutdownMetrics (shutdownMetrics s sk1 r1).1 sk2 r2
        = ((shutdownMetrics s sk1 r1).1, none)) ∧
    (∀ (s : LifecycleState) (sk : Bool) (r : Option String),
      s.initialized = false → s.shutdownOnceFired = false →
        shutdownMetrics s sk r = ({ s with shutdownOnceFired := true }, none)) := by
  refine ⟨fun tr => (run_flushInv tr).2,
    fun s sk1 sk2 r1 r2 =>
      shutdownMetrics_of_fired _ _ _ (shutdownMetrics_fires s sk1 r1), ?_⟩
  intro s sk r hinit hguard
  simp [shutdownMetrics, hguard, hinit]

/-- Witness for the amended C6: concrete instances of all three
conjuncts, including the second call after a first shutdown being a
pure no-op returning `none`. -/
theorem shutdown_idempotent_flush_at_most_once_witness :
    (run [Event.shutdownEv false none]).flushRuns ≤ 1 ∧
    shutdownMetrics (shutdownMetrics initialState false none).1 false none
      = ((shutdownMetrics initialState false none).1, none) ∧
    shutdownMetrics initialState true (some "ignored")
      = ({ initialState with shutdownOnceFired := true }, none) :=
  ⟨shutdown_idempotent_flush_at_most_once.1 _,
   shutdown_idempotent_flush_at_most_once.2.1 _ _ _ _ _,
   shutdown_idempotent_flush_at_most_once.2.2 _ _ _ (by decide) (by decide)⟩

/-- C10: if `ShutdownMetrics` runs at least once before any
successful `InitMetrics` (the prefix contains no successful init),
then in every later state of the process — including after a
subsequent successful `InitMetrics` in the suffix — the shutdown
guard remains consumed, and any further `ShutdownMetrics` call
leaves the state untouched (so it never runs the provider flush and
never clears the initialized flag) and returns `none`. -/
theorem shutdown_guard_permanently_consumed
    (pre : List Event) (sk : Bool) (r : Option String) (post : List Event)
    (skip : Bool) (res : Option String)
    (_hpre : noSuccessInit pre = true) :
    (run (pre ++ .shutdownEv sk r :: post)).shutdownOnceFired = true ∧
    shutdownMetrics (run (pre ++ .shutdownEv sk r :: post)) skip res
      = (run (pre ++ .shutdownEv sk r :: post), none) := by
  have hfired : (run (pre ++ .shutdownEv sk r :: post)).shutdownOnceFired = true := by
    unfold run
    rw [List.foldl_append]
    simp only [List.foldl_cons]
    exact foldl_preserves_fired post _
      (shutdownMetrics_fires (pre.foldl step initialState) sk r)
  exact ⟨hfired, shutdownMetrics_of_fired _ _ _ hfired⟩

/-- Witness for C10: a shutdown call at process start, followed by a
successful initialization, after which a further shutdown call is a
pure no-op returning `none`. -/
theorem shutdown_guard_permanently_consumed_witness :
    (run ([] ++ .shutdownEv false none :: [Event.initEv cfgValid (.ok 0)])).shutdownOnceFired
      = true ∧
    shutdownMetrics
        (run ([] ++ .shutdownEv false none :: [Event.initEv cfgValid (.ok 0)]))
        false (some "flush failed")
      = (run ([] ++ .shutdownEv false none :: [Event.initEv cfgValid (.ok 0)]), none) :=
  shutdown_guard_permanently_consumed [] false none [.initEv cfgValid (.ok 0)]
    false (some "flush failed") (by decide)

/-- Counterexample to C3: a `RecordRequestEnd` call with no matching
`RecordRequestStart` drives the in-flight counter to −1, so the value
sampled by the callback is negative and differs from the number of
unmatched Start calls (zero). -/
theorem inflight_negative_on_unmatched_end_cex :
    observeInFlight (runHTTP [.endEv "GET" "/users" 200 512 5000000 0]) = -1 ∧
    observeInFlight (runHTTP [.endEv "GET" "/users" 200 512 5000000 0]) < 0 ∧
    countStarts [.endEv "GET" "/users" 200 512 5000000 0] = 0 := by
  decide

/-- C3 as amended: for every call sequence in which each
`RecordRequestEnd` is matched by an earlier `RecordRequestStart`
(every prefix has at least as many Starts as Ends), the in-flight
counter sampled by the callback after any prefix equals the number of
Start calls without a matching End at that point, and is never
negative.  An unmatched End violates this. -/
theorem inflight_counts_unmatched_starts (evs : List HTTPEvent)
    (hbal : ∀ n, countEnds (evs.take n) ≤ countStarts (evs.take n)) :
    ∀ n, observeInFlight (runHTTP (evs.take n))
        = (countStarts (evs.take n) : Int) - (countEnds (evs.take n) : Int) ∧
      0 ≤ observeInFlight (runHTTP (evs.take n)) := by
  intro n
  have he : observeInFlight (runHTTP (evs.take n))
      = (countStarts (evs.take n) : Int) - (countEnds (evs.take n) : Int) := by
    unfold observeInFlight runHTTP
    rw [foldl_inFlight]
    simp [initHTTPState]
  refine ⟨he, ?_⟩
  rw [he]
  have := hbal n
  omega

/-- Witness for the amended C3: one matched Start/End pair observes 0
in flight after both calls, matching one Start minus one End. -/
theorem inflight_counts_unmatched_starts_witness :
    observeInFlight (runHTTP (([HTTPEvent.startEv "GET" "/users",
        HTTPEvent.endEv "GET" "/users" 200 512 10000000 0]).take 2))
      = (countStarts (([HTTPEvent.startEv "GET" "/users",
          HTTPEvent.endEv "GET" "/users" 200 512 10000000 0]).take 2) : Int)
        - (countEnds (([HTTPEvent.startEv "GET" "/users",
            HTTPEvent.endEv "GET" "/users" 200 512 10000000 0]).take 2) : Int) ∧
    0 ≤ observeInFlight (runHTTP (([HTTPEvent.startEv "GET" "/users",
        HTTPEvent.endEv "GET" "/users" 200 512 10000000 0]).take 2)) :=
  inflight_counts_unmatched_starts _
    (by
      intro n
      match n with
      | 0 => decide
      | 1 => decide
      | (n + 2) => simp [List.take, countStarts, countEnds])
    2

/-- Counterexample to C4: after a successful initialization followed
by a shutdown, the state is uninitialized, yet `GetMeter` returns a
meter drawn from the previously registered SDK provider (still
installed as the otel global by `SetMeterProvider`), not from the
no-op default provider. -/
theorem getMeter_after_shutdown_not_default_cex :
    (run [Event.initEv cfgValid (.ok 0), Event.shutdownEv true none]).initialized
      = false ∧
    getMeter (run [Event.initEv cfgValid (.ok 0), Event.shutdownEv true none]) "app"
      = { provider := .sdk 0, scope := "app" } ∧
    getMeter (run [Event.initEv cfgValid (.ok 0), Event.shutdownEv true none]) "app"
      ≠ { provider := .defaultProvider, scope := "app" } := by
  decide

/-- C4 as amended: in every reachable state, `GetMeter` returns a
meter from the stored SDK provider when initialized, and otherwise a
meter from the globally registered API provider; that global is the
no-op default provider as long as no successful initialization has
occurred (before initialization and after a failed one), but after a
shutdown it remains the previously registered SDK provider. -/
theorem getMeter_source_of_state (tr : List Event) (name : String) :
    getMeter (run tr) name
      = { provider :=
            if (run tr).initialized then
              ProviderRef.sdk (((run tr).meterProvider).getD 0)
            else (run tr).apiGlobal
          scope := name } ∧
    (noSuccessInit tr = true → (run tr).apiGlobal = .defaultProvider) := by
  constructor
  · rcases hi : (run tr).initialized
    · simp [getMeter, hi]
    · obtain ⟨id, hid⟩ := run_providerInv tr hi
      simp [getMeter, hi, hid]
  · intro h
    have := foldl_apiGlobal_of_noSuccessInit tr initialState h
    simpa [run, initialState] using this

/-- Witness for the amended C4: after a failed initialization, the
meter comes from the global provider, which is still the no-op
default. -/
theorem getMeter_source_of_state_witness :
    (run [Event.initEv cfgValid .exporterFail]).apiGlobal = .defaultProvider ∧
    getMeter (run [Event.initEv cfgValid .exporterFail]) "svc"
      = { provider := (run [Event.initEv cfgValid .exporterFail]).apiGlobal,
          scope := "svc" } :=
  ⟨(getMeter_source_of_state [Event.initEv cfgValid .exporterFail] "svc").2 (by decide),
   ((getMeter_source_of_state [Event.initEv cfgValid .exporterFail] "svc").1).trans
     (by decide)⟩

/-- Counterexample to C5: a histogram view with two boundaries that
are not ascending passes validation (`validateConfig` returns
`none`), and `InitMetrics` accepts it without any configuration
error — the code only counts boundaries, it never checks their
ordering. -/
theorem validateConfig_accepts_nonascending_cex :
    validateConfig
        { cfgValid with
            customHistogramViews := [⟨"db.calls.duration", [3, 1]⟩] } = none ∧
    (initMetrics initialState
        { cfgValid with
            customHistogramViews := [⟨"db.calls.duration", [3, 1]⟩] } (.ok 0)).2
      = none ∧
    ¬ List.Sorted (· < ·) ([3, 1] : List Int) := by
  refine ⟨by decide, by decide, ?_⟩
  decide

/-- C5 as amended: `InitMetrics` returns a configuration error
exactly when the configuration violates a validation rule — empty
endpoint, empty service name, empty environment, push interval ≤ 0,
secure mode with empty CA file, a histogram view with an empty
instrument name, or a histogram view with fewer than two bucket
boundaries; the boundaries' ordering is not validated.  Any
configuration satisfying all these rules passes validation. -/
theorem validateConfig_accepts_iff (cfg : Config) :
    (validateConfig cfg = none ↔ specConfigAccepted cfg) ∧
    (∀ (s : LifecycleState) (out : ConstructOutcome),
      (∃ m, (initMetrics s cfg out).2 = some (.invalidConfig m))
        ↔ validateConfig cfg ≠ none) := by
  constructor
  · unfold validateConfig specConfigAccepted
    split_ifs with h1 h2 h3 h4 h5
    · simp [h1]
    · simp [h2]
    · simp [h3]
    · simp only [reduceCtorEq, false_iff]
      intro hcon
      exact absurd h4 (not_le.mpr hcon.2.2.2.1)
    · simp only [reduceCtorEq, false_iff]
      intro hcon
      rcases hcon.2.2.2.2.1 with hb | hb
      · rw [hb] at h5
        exact h5.1 rfl
      · exact hb h5.2
    · rw [validateViews_none_iff]
      constructor
      · intro h
        refine ⟨h1, h2, h3, not_le.mp h4, ?_, h⟩
        by_cases hb : cfg.otlpInsecure
        · exact Or.inl hb
        · right
          intro hc
          exact h5 ⟨hb, hc⟩
      · intro h
        exact h.2.2.2.2.2
  · intro s out
    rcases hv : validateConfig cfg with _ | msg
    · simp only [initMetrics, hv, ne_eq, not_true_eq_false, iff_false, not_exists]
      rcases ho : s.initOnceFired <;> rcases out <;> simp
    · simp [initMetrics, hv]

/-- Witness for the amended C5: the valid reference configuration
satisfies every rule and passes validation. -/
theorem validateConfig_accepts_iff_witness :
    validateConfig cfgValid = none :=
  ((validateConfig_accepts_iff cfgValid).1).mpr (by decide)

/-- C9: every `RecordRequestEnd` call decrements the in-flight
counter by 1; appends exactly one entry to the error counter, tagged
(method, route, status), precisely when the status code is ≥ 400;
always records exactly one duration sample — the elapsed nanoseconds
since `start` truncated to milliseconds — and exactly one
response-size sample, both tagged (method, route, status); and leaves
the total-requests counter untouched. -/
theorem recordRequestEnd_effects (s : HTTPState) (m r : String)
    (code size now st : Int) :
    (recordRequestEnd s m r code size now st).inFlight = s.inFlight - 1 ∧
    (recordRequestEnd s m r code size now st).requestsErrors
      = (if 400 ≤ code then s.requestsErrors ++ [(m, r, code)]
         else s.requestsErrors) ∧
    ((recordRequestEnd s m r code size now st).requestsErrors.length
        = s.requestsErrors.length + 1 ↔ 400 ≤ code) ∧
    (recordRequestEnd s m r code size now st).requestsDuration
      = s.requestsDuration ++ [((m, r, code), Int.tdiv (now - st) 1000000)] ∧
    (recordRequestEnd s m r code size now st).responseSize
      = s.responseSize ++ [((m, r, code), size)] ∧
    (recordRequestEnd s m r code size now st).requestsTotal
      = s.requestsTotal := by
  unfold recordRequestEnd
  by_cases hc : 400 ≤ code
  · simp [hc]
  · simp [hc]

